import Mathlib

/-!
Verification of the subscription billing-period reconciliation logic of a
restaurant loyalty platform.  The repository spreads this logic across a
client-side service class (src/src/services/subscriptionService.ts), several
near-duplicate Stripe webhook handlers
(src/supabase/functions/stripe-webhook/index.ts, src/unnamed/part_002,
src/unnamed/part_003) and SQL stored procedures
(src/supabase/migrations/20250816085000_quick_temple.sql, src/unnamed/part_005).

The development embeds those pieces as executable Lean definitions:

* Calendar arithmetic (epoch-day conversions, month addition) used to model
  both the JavaScript Date semantics of the webhook helper and the Postgres
  interval semantics of the SQL functions.
* The plan catalog and feature sets of SubscriptionService.
* The service-side createSubscription / updateSubscription store operations
  over a list-of-rows store.
* The access evaluator (checkSubscriptionAccess / fallbackAccessCheck).
* The stored procedure handle_subscription_webhook, which every webhook
  handler invokes by RPC but whose SQL body is not part of the repository;
  it is modelled from the specification (sections 4.3 and 7).
-/

/-! ## Calendar arithmetic

Civil-date conversions following the standard era-based algorithm.  Epoch day
0 is 1970-01-01.  These are used to model both JavaScript Date normalisation
(ECMA-262 MakeDay, which lets day-of-month overflow roll into the next month)
and Postgres interval addition (which clamps the day to the last valid day of
the target month). -/

structure CivilDate where
  year : Int
  month : Nat
  day : Nat
deriving DecidableEq, Repr

def isLeap (y : Int) : Bool :=
  (y % 4 == 0 && y % 100 != 0) || (y % 400 == 0)

def daysInMonth (y : Int) (m : Nat) : Nat :=
  if m == 2 then (if isLeap y then 29 else 28)
  else if m == 4 || m == 6 || m == 9 || m == 11 then 30
  else 31

/-- Number of days since 1970-01-01 of a civil date (valid month 1..12). -/
def daysFromCivil (t : CivilDate) : Int :=
  let y : Int := if t.month ≤ 2 then t.year - 1 else t.year
  let era : Int := y.fdiv 400
  let yoe : Int := y - era * 400
  let mp : Int := if 2 < t.month then (t.month : Int) - 3 else (t.month : Int) + 9
  let doy : Int := (153 * mp + 2).fdiv 5 + (t.day : Int) - 1
  let doe : Int := yoe * 365 + yoe.fdiv 4 - yoe.fdiv 100 + doy
  era * 146097 + doe - 719468

/-- Civil date of a count of days since 1970-01-01. -/
def civilFromDays (z0 : Int) : CivilDate :=
  let z : Int := z0 + 719468
  let era : Int := z.fdiv 146097
  let doe : Int := z - era * 146097
  let yoe : Int := (doe - doe.fdiv 1460 + doe.fdiv 36524 - doe.fdiv 146096).fdiv 365
  let y : Int := yoe + era * 400
  let doy : Int := doe - (365 * yoe + yoe.fdiv 4 - yoe.fdiv 100)
  let mp : Int := (5 * doy + 2).fdiv 153
  let d : Int := doy - (153 * mp + 2).fdiv 5 + 1
  let m : Int := if mp < 10 then mp + 3 else mp - 9
  { year := if m ≤ 2 then y + 1 else y, month := m.toNat, day := d.toNat }

/-- ECMA-262 MakeDay: epoch day of (year, 0-based month, day-of-month), where
month and day may be out of range and are normalised by rolling over, exactly
as a JavaScript Date does. -/
def jsMakeDay (y month date : Int) : Int :=
  daysFromCivil { year := y + month.fdiv 12, month := (month.emod 12).toNat + 1, day := 1 }
    + (date - 1)

/-- Postgres timestamptz + interval of n months: add months, clamping the day
to the last valid day of the target month. -/
def pgAddMonths (t : CivilDate) (n : Int) : CivilDate :=
  let tm : Int := ((t.month : Int) - 1) + n
  let y : Int := t.year + tm.fdiv 12
  let m : Nat := (tm.emod 12).toNat + 1
  { year := y, month := m, day := min t.day (daysInMonth y m) }

/-- Postgres timestamptz + interval of n days. -/
def pgAddDays (t : CivilDate) (n : Int) : CivilDate :=
  civilFromDays (daysFromCivil t + n)

/-! ## Billing period calculators as written in the source -/

/-- The helper calculatePeriodEnd of src/unnamed/part_002 (lines 11-25): a
JavaScript Date is advanced with setMonth / setFullYear.  The switch has no
trial case and no default, so any other plan string leaves the date
unchanged.  Date.setMonth does not clamp: the day of month overflows into the
following month. -/
def calculatePeriodEnd (t : CivilDate) (planType : String) : CivilDate :=
  if planType == "monthly" then
    civilFromDays (jsMakeDay t.year (((t.month : Int) - 1) + 1) (t.day : Int))
  else if planType == "semiannual" then
    civilFromDays (jsMakeDay t.year (((t.month : Int) - 1) + 6) (t.day : Int))
  else if planType == "annual" then
    civilFromDays (jsMakeDay (t.year + 1) ((t.month : Int) - 1) (t.day : Int))
  else t

/-- calculate_subscription_period_end of
src/supabase/migrations/20250816085000_quick_temple.sql (lines 9-34).  The
ELSE branch silently defaults to one month. -/
def calculate_subscription_period_end_qt (planType : String) (t : CivilDate) : CivilDate :=
  if planType == "trial" then pgAddDays t 30
  else if planType == "monthly" then pgAddMonths t 1
  else if planType == "semiannual" then pgAddMonths t 6
  else if planType == "annual" then pgAddMonths t 12
  else pgAddMonths t 1

/-- calculate_subscription_period_end of src/unnamed/part_005 (lines 24-43).
The ELSE branch silently defaults to 30 days. -/
def calculate_subscription_period_end_p5 (planType : String) (t : CivilDate) : CivilDate :=
  if planType == "trial" then pgAddDays t 30
  else if planType == "monthly" then pgAddMonths t 1
  else if planType == "semiannual" then pgAddMonths t 6
  else if planType == "annual" then pgAddMonths t 12
  else pgAddDays t 30

/-! ## Plan catalog (SubscriptionService.getPlanFeatures / getTrialFeatures) -/

structure PlanFeatures where
  maxCustomers : Int
  maxBranches : Int
  advancedAnalytics : Bool
  prioritySupport : Bool
  customBranding : Bool
  apiAccess : Bool
deriving DecidableEq, Repr

/-- SubscriptionService.getTrialFeatures (lines 276-285). -/
def getTrialFeatures : PlanFeatures :=
  { maxCustomers := 100, maxBranches := 1, advancedAnalytics := false,
    prioritySupport := false, customBranding := false, apiAccess := false }

/-- SubscriptionService.getPlanFeatures (lines 256-274).  -1 encodes
unlimited; the default branch of the switch falls back to trial features. -/
def getPlanFeatures (planType : String) : PlanFeatures :=
  if planType == "trial" then getTrialFeatures
  else if planType == "monthly" || planType == "semiannual" || planType == "annual" then
    { maxCustomers := -1, maxBranches := -1, advancedAnalytics := true,
      prioritySupport := true,
      customBranding := planType != "monthly",
      apiAccess := planType != "monthly" }
  else getTrialFeatures

/-- The fully unlocked feature set: unlimited counts and every flag set. -/
def fullFeatures : PlanFeatures :=
  { maxCustomers := -1, maxBranches := -1, advancedAnalytics := true,
    prioritySupport := true, customBranding := true, apiAccess := true }

/-! ## Webhook status mappings (claim C10) -/

/-- The four statuses of the Subscription type
(src/src/services/subscriptionService.ts lines 3-14) and of the database
enum. -/
def allowedStatuses : List String := ["active", "expired", "cancelled", "past_due"]

/-- The status each event type of the consolidated webhook handler in
src/unnamed/part_002 passes to handle_subscription_webhook (some st), or none
when the event type performs no store write. -/
def webhookStatus_part002 (eventType : String) : Option String :=
  if eventType == "checkout.session.completed" then some "active"
  else if eventType == "payment_intent.succeeded" then some "active"
  else if eventType == "invoice.payment_succeeded" then some "active"
  else if eventType == "invoice.payment_failed" then some "past_due"
  else if eventType == "customer.subscription.deleted" then some "cancelled"
  else none

/-- The status each event type of the duplicate webhook handler in
src/unnamed/part_003 passes to handle_subscription_webhook.  Its
customer.subscription.deleted case (lines 155-179) passes the string
"canceled" with a single l. -/
def webhookStatus_part003 (eventType : String) : Option String :=
  if eventType == "checkout.session.completed" then some "active"
  else if eventType == "invoice.payment_succeeded" then some "active"
  else if eventType == "invoice.payment_failed" then some "past_due"
  else if eventType == "customer.subscription.deleted" then some "canceled"
  else none

/-! ## Subscription rows and the service-side store operations

Instants are modelled as integer milliseconds since the epoch, matching the
JavaScript Date arithmetic of SubscriptionService.  The subscription store is
a list of rows; created_at and updated_at are set by the operations. -/

def msPerDay : Int := 24 * 60 * 60 * 1000

/-- A row of the subscriptions table, as declared by the Subscription
interface of src/src/services/subscriptionService.ts (lines 3-14).  Plan and
status are kept as strings because the source branches on strings and has
default branches for unrecognised values. -/
structure Subscription where
  id : Nat
  user_id : String
  plan_type : String
  status : String
  stripe_subscription_id : Option String
  stripe_customer_id : Option String
  current_period_start : Int
  current_period_end : Int
  created_at : Int
  updated_at : Int
deriving DecidableEq, Repr

def userFilter (u : String) (s : Subscription) : Bool := s.user_id == u

def countUser (store : List Subscription) (u : String) : Nat :=
  (store.filter (userFilter u)).length

def pickLater (acc : Option Subscription) (s : Subscription) : Option Subscription :=
  match acc with
  | none => some s
  | some t => if t.created_at ≤ s.created_at then some s else some t

/-- SubscriptionService.getUserSubscription (lines 164-184): the row for the
user with the greatest created_at (ORDER BY created_at DESC LIMIT 1), or none. -/
def getUserSubscription (store : List Subscription) (u : String) : Option Subscription :=
  (store.filter (userFilter u)).foldl pickLater none

/-- The switch on planType of SubscriptionService.createSubscription
(lines 46-61) and updateSubscription (lines 125-140): fixed day-count
durations, with the default branch silently falling back to 30 days. -/
def periodEndMsFor (now : Int) (planType : String) : Int :=
  if planType == "trial" then now + 30 * msPerDay
  else if planType == "monthly" then now + 30 * msPerDay
  else if planType == "semiannual" then now + 180 * msPerDay
  else if planType == "annual" then now + 365 * msPerDay
  else now + 30 * msPerDay

/-- The field update performed by SubscriptionService.updateSubscription
(lines 142-151): plan, status active, Stripe references, a period end
recomputed from the current time, and updated_at.  The stored
current_period_start is left unchanged. -/
def updateSubscriptionRow (now : Int) (planType : String)
    (sid cid : Option String) (s : Subscription) : Subscription :=
  { s with plan_type := planType, status := "active",
           stripe_subscription_id := sid, stripe_customer_id := cid,
           current_period_end := periodEndMsFor now planType,
           updated_at := now }

/-- SubscriptionService.updateSubscription (lines 115-162) over the store:
update the row whose id matches. -/
def updateSubscription (store : List Subscription) (now : Int) (subscriptionId : Nat)
    (planType : String) (sid cid : Option String) : List Subscription :=
  store.map (fun s => if s.id == subscriptionId then
    updateSubscriptionRow now planType sid cid s else s)

/-- SubscriptionService.createSubscription (lines 26-113): if the user
already has a row and it is active, delegate to updateSubscription; if a
non-active row exists, update it in place including current_period_start;
only when no row exists insert a new one.  freshId is the id the store
assigns to an inserted row. -/
def createSubscription (store : List Subscription) (now : Int) (userId : String)
    (planType : String) (sid cid : Option String) (freshId : Nat) : List Subscription :=
  match getUserSubscription store userId with
  | some ex =>
    if ex.status == "active" then
      updateSubscription store now ex.id planType sid cid
    else
      store.map (fun s => if s.id == ex.id then
        { s with plan_type := planType, status := "active",
                 stripe_subscription_id := sid, stripe_customer_id := cid,
                 current_period_start := now,
                 current_period_end := periodEndMsFor now planType,
                 updated_at := now } else s)
  | none =>
      store ++ [{ id := freshId, user_id := userId, plan_type := planType,
                  status := "active", stripe_subscription_id := sid,
                  stripe_customer_id := cid, current_period_start := now,
                  current_period_end := periodEndMsFor now planType,
                  created_at := now, updated_at := now }]

/-! ## Access evaluator (checkSubscriptionAccess / fallbackAccessCheck) -/

structure AccessResult where
  hasAccess : Bool
  subscription : Option Subscription
  features : PlanFeatures
  daysRemaining : Int
deriving DecidableEq, Repr

/-- Math.ceil of the rational a / b for b positive, as JavaScript computes
daysRemaining. -/
def ceilDiv (a b : Int) : Int := -((-a).fdiv b)

/-- SubscriptionService.fallbackAccessCheck (lines 228-254): no subscription
grants access with trial features and the constant 30 days; otherwise access
requires status active and an end date in the future, and daysRemaining is
the clamped ceiling of the remaining time in days. -/
def fallbackAccessCheck (subscription : Option Subscription) (now : Int) : AccessResult :=
  match subscription with
  | none =>
      { hasAccess := true, subscription := none,
        features := getTrialFeatures, daysRemaining := 30 }
  | some s =>
      { hasAccess := (s.status == "active") && decide (now < s.current_period_end),
        subscription := some s,
        features := getPlanFeatures s.plan_type,
        daysRemaining := max 0 (ceilDiv (s.current_period_end - now) msPerDay) }

/-- SubscriptionService.checkSubscriptionAccess (lines 206-226): the store
lookup either fails (getUserSubscription swallows the error and returns null,
and the surrounding catch returns the same fallback) or yields an optional
row passed to fallbackAccessCheck. -/
def checkSubscriptionAccess (lookup : Except Unit (Option Subscription))
    (now : Int) : AccessResult :=
  match lookup with
  | .error _ =>
      { hasAccess := true, subscription := none,
        features := getTrialFeatures, daysRemaining := 30 }
  | .ok subscription => fallbackAccessCheck subscription now

/-! ## The subscription reconciler

Every webhook handler performs its store write through the stored procedure
handle_subscription_webhook (called by RPC from
src/supabase/functions/stripe-webhook/index.ts, src/unnamed/part_002 and
src/unnamed/part_003), but the SQL body of that procedure is not part of the
repository, so its semantics are modelled from the specification here. -/

/-- A billing event as delivered to the reconciler: exactly the argument list
of the handle_subscription_webhook RPC (p_user_id, p_plan_type, p_status,
p_stripe_subscription_id, p_stripe_customer_id, p_period_start,
p_period_end).  p_period_end is optional: the checkout handler of
src/supabase/functions/stripe-webhook/index.ts passes null and lets the
procedure calculate it from the plan type. -/
structure BillingEvent where
  user_id : Option String
  plan_type : String
  status : String
  stripe_subscription_id : Option String
  stripe_customer_id : Option String
  period_start : Int
  period_end : Option Int
deriving DecidableEq, Repr

inductive ReconcileError where
  | InvalidPlanKind
  | MissingUserReference
  | StoreUnavailable
deriving DecidableEq, Repr

inductive ReconcileOutcome where
  | applied
  | idempotentNoop
  | staleIgnored
deriving DecidableEq, Repr

/-- Modelled from the spec: the Billing Period Calculator of section 4.2,
used by the reconciler when the event carries no processor-supplied period
end.  Calendar-aware month and year addition at millisecond granularity,
returning none (InvalidPlanKind) for an unknown plan identifier instead of
defaulting. -/
def computePeriodEnd (startMs : Int) (planType : String) : Option Int :=
  let d : Int := startMs.fdiv msPerDay
  let r : Int := startMs.emod msPerDay
  if planType == "trial" then some (startMs + 30 * msPerDay)
  else if planType == "monthly" then
    some (daysFromCivil (pgAddMonths (civilFromDays d) 1) * msPerDay + r)
  else if planType == "semiannual" then
    some (daysFromCivil (pgAddMonths (civilFromDays d) 6) * msPerDay + r)
  else if planType == "annual" then
    some (daysFromCivil (pgAddMonths (civilFromDays d) 12) * msPerDay + r)
  else none

/-- Modelled from the spec: the stored procedure handle_subscription_webhook,
whose SQL definition is missing from the repository although every webhook
handler calls it.  Following spec sections 4.3 and 7 it operates on the
single authoritative row of the event user (the current argument), and:
fails with MissingUserReference when the event carries no user; fails with
InvalidPlanKind for an unmapped plan string without guessing a default; takes
a processor-supplied period end as authoritative and otherwise computes it
with the Billing Period Calculator; rejects as StaleEventIgnored (a benign
outcome, not a hard error, leaving the row untouched) an update for the same
external subscription id whose resulting period end would move backward,
unless the event is an explicit cancellation (status "cancelled", the status
every handler maps customer.subscription.deleted to), which takes status
precedence regardless of period ordering; short-circuits to a no-op when the
event would not change any persisted field; and otherwise updates the
existing row in place, or inserts one (with the store-assigned freshId) when
none exists. -/
def handle_subscription_webhook (current : Option Subscription) (e : BillingEvent)
    (now : Int) (freshId : Nat) :
    Except ReconcileError (ReconcileOutcome × Option Subscription) :=
  match e.user_id with
  | none => .error .MissingUserReference
  | some uid =>
    match computePeriodEnd e.period_start e.plan_type with
    | none => .error .InvalidPlanKind
    | some calcEnd =>
      let newEnd : Int := e.period_end.getD calcEnd
      match current with
      | none =>
          let inserted : Subscription :=
            { id := freshId, user_id := uid, plan_type := e.plan_type,
              status := e.status,
              stripe_subscription_id := e.stripe_subscription_id,
              stripe_customer_id := e.stripe_customer_id,
              current_period_start := e.period_start,
              current_period_end := newEnd,
              created_at := now, updated_at := now }
          .ok (.applied, some inserted)
      | some r =>
          if r.stripe_subscription_id = e.stripe_subscription_id ∧
             newEnd < r.current_period_end then
            if e.status = "cancelled" then
              .ok (.applied, some { r with status := "cancelled", updated_at := now })
            else
              .ok (.staleIgnored, some r)
          else if r.plan_type = e.plan_type ∧ r.status = e.status ∧
                  r.stripe_subscription_id = e.stripe_subscription_id ∧
                  r.stripe_customer_id = e.stripe_customer_id ∧
                  r.current_period_start = e.period_start ∧
                  r.current_period_end = newEnd then
            .ok (.idempotentNoop, some r)
          else
            let updated : Subscription :=
              { r with plan_type := e.plan_type, status := e.status,
                       stripe_subscription_id := e.stripe_subscription_id,
                       stripe_customer_id := e.stripe_customer_id,
                       current_period_start := e.period_start,
                       current_period_end := newEnd,
                       updated_at := now }
            .ok (.applied, some updated)

/-! ## Concrete rows and events used by the claim theorems -/

/-- The row the insert branch of createSubscription appends. -/
def insertedRow (u p : String) (sid cid : Option String) (now : Int)
    (fid : Nat) : Subscription :=
  { id := fid, user_id := u, plan_type := p, status := "active",
    stripe_subscription_id := sid, stripe_customer_id := cid,
    current_period_start := now, current_period_end := periodEndMsFor now p,
    created_at := now, updated_at := now }

/-- A concrete row used to instantiate the access-evaluation theorem. -/
def boundaryRow (endMs : Int) : Subscription :=
  { id := 1, user_id := "u1", plan_type := "monthly", status := "active",
    stripe_subscription_id := none, stripe_customer_id := none,
    current_period_start := 0, current_period_end := endMs,
    created_at := 0, updated_at := 0 }

/-- A concrete already-applied row with period end at day 40. -/
def appliedRow : Subscription :=
  { id := 1, user_id := "u1", plan_type := "monthly", status := "active",
    stripe_subscription_id := some "sub1", stripe_customer_id := some "cus1",
    current_period_start := 0, current_period_end := 40 * msPerDay,
    created_at := 0, updated_at := 0 }

/-- A concrete stale event for the same external subscription id, with
period end at day 20, in the two variants of interest. -/
def staleEvent (status : String) : BillingEvent :=
  { user_id := some "u1", plan_type := "monthly", status := status,
    stripe_subscription_id := some "sub1", stripe_customer_id := some "cus1",
    period_start := 0, period_end := some (20 * msPerDay) }

/-- The event replayed in the idempotence witness. -/
def replayEvent : BillingEvent :=
  { user_id := some "u1", plan_type := "monthly", status := "active",
    stripe_subscription_id := some "sub1", stripe_customer_id := some "cus1",
    period_start := 0, period_end := some (30 * msPerDay) }

/-- The row the reconciler inserts for replayEvent at instant 7. -/
def replayRow : Subscription :=
  { id := 1, user_id := "u1", plan_type := "monthly", status := "active",
    stripe_subscription_id := some "sub1", stripe_customer_id := some "cus1",
    current_period_start := 0, current_period_end := 30 * msPerDay,
    created_at := 7, updated_at := 7 }

/-- The concrete row used to refute the period-end derivation invariant:
created with period start 0 and a monthly period end at day 30. -/
def derivedRow : Subscription :=
  { id := 1, user_id := "u1", plan_type := "monthly", status := "active",
    stripe_subscription_id := some "sub1", stripe_customer_id := some "cus1",
    current_period_start := 0, current_period_end := 30 * msPerDay,
    created_at := 0, updated_at := 0 }

/-! ## Sanity checks of the calendar embedding -/

example : daysFromCivil { year := 1970, month := 1, day := 1 } = 0 := by decide
example : civilFromDays 0 = { year := 1970, month := 1, day := 1 } := by decide
example : civilFromDays (daysFromCivil { year := 2025, month := 1, day := 31 }) =
    { year := 2025, month := 1, day := 31 } := by decide
example : pgAddMonths { year := 2025, month := 1, day := 31 } 1 =
    { year := 2025, month := 2, day := 28 } := by decide
example : pgAddMonths { year := 2024, month := 2, day := 29 } 12 =
    { year := 2025, month := 2, day := 28 } := by decide
example : calculatePeriodEnd { year := 2024, month := 8, day := 31 } "semiannual" =
    { year := 2025, month := 3, day := 3 } := by decide

/-! ## Store lemmas -/

lemma getUserSubscription_of_filter_nil {store : List Subscription} {u : String}
    (h : store.filter (userFilter u) = []) :
    getUserSubscription store u = none := by
  unfold getUserSubscription
  rw [h]
  rfl

lemma getUserSubscription_of_filter_singleton {store : List Subscription}
    {u : String} {r : Subscription}
    (h : store.filter (userFilter u) = [r]) :
    getUserSubscription store u = some r := by
  unfold getUserSubscription
  rw [h]
  rfl

lemma countUser_map (u : String) (f : Subscription → Subscription)
    (hf : ∀ s, (f s).user_id = s.user_id) :
    ∀ store : List Subscription, countUser (store.map f) u = countUser store u := by
  intro store
  induction store with
  | nil => rfl
  | cons a t ih =>
    have hfa : userFilter u (f a) = userFilter u a := by
      simp [userFilter, hf a]
    simp only [countUser, List.map_cons, List.filter_cons, hfa] at ih ⊢
    cases h : userFilter u a <;> simp [h] <;> exact ih

lemma map_eq_self_of {l : List Subscription} {f : Subscription → Subscription}
    (h : ∀ s ∈ l, f s = s) : l.map f = l := by
  induction l with
  | nil => rfl
  | cons a t ih =>
    simp only [List.map_cons]
    rw [h a (by simp), ih (fun s hs => h s (by simp [hs]))]

/-- Inserting when no row exists for the user: the append branch of
createSubscription. -/
lemma createSubscription_of_no_row {store : List Subscription} {u : String}
    {now : Int} {p : String} {sid cid : Option String} {fid : Nat}
    (h : store.filter (userFilter u) = []) :
    createSubscription store now u p sid cid fid =
      store ++ [insertedRow u p sid cid now fid] := by
  unfold createSubscription insertedRow
  rw [getUserSubscription_of_filter_nil h]

lemma filter_append_insertedRow {store : List Subscription} {u : String}
    {now : Int} {p : String} {sid cid : Option String} {fid : Nat}
    (h : store.filter (userFilter u) = []) :
    (store ++ [insertedRow u p sid cid now fid]).filter (userFilter u) =
      [insertedRow u p sid cid now fid] := by
  rw [List.filter_append, h]
  simp [userFilter, insertedRow]

lemma countUser_createSubscription_of_no_row {store : List Subscription}
    {u : String} {now : Int} {p : String} {sid cid : Option String} {fid : Nat}
    (h : store.filter (userFilter u) = []) :
    countUser (createSubscription store now u p sid cid fid) u = 1 := by
  rw [createSubscription_of_no_row h]
  unfold countUser
  rw [filter_append_insertedRow h]
  rfl

/-- When a row exists for the user, createSubscription only rewrites rows in
place, so the number of rows of every user is unchanged. -/
lemma countUser_createSubscription_of_some {store : List Subscription}
    {u : String} {now : Int} {p : String} {sid cid : Option String} {fid : Nat}
    {r : Subscription}
    (h : getUserSubscription store u = some r) :
    countUser (createSubscription store now u p sid cid fid) u = countUser store u := by
  unfold createSubscription
  rw [h]
  cases ha : r.status == "active"
  · simp only [ha, Bool.false_eq_true, if_false]
    exact countUser_map u _
      (fun s => by cases hid : s.id == r.id <;> simp [hid]) store
  · simp only [ha, if_true]
    unfold updateSubscription
    exact countUser_map u _
      (fun s => by
        cases hid : s.id == r.id <;> simp [hid, updateSubscriptionRow]) store

lemma countUser_createSubscription_of_one {store : List Subscription}
    {u : String} {now : Int} {p : String} {sid cid : Option String} {fid : Nat}
    (h : countUser store u = 1) :
    countUser (createSubscription store now u p sid cid fid) u = 1 := by
  obtain ⟨r, hr⟩ := List.length_eq_one.mp h
  rw [countUser_createSubscription_of_some
    (getUserSubscription_of_filter_singleton hr)]
  exact h

/-- Replaying createSubscription with the identical arguments at the same
instant is a no-op: the second call finds the row inserted by the first call
(whose id is fresh for the store) active and rewrites it with the exact same
field values. -/
lemma createSubscription_replay {store : List Subscription}
    {u p : String} {sid cid : Option String} {now : Int} (fid fid2 : Nat)
    (h : store.filter (userFilter u) = [])
    (hfresh : ∀ s ∈ store, s.id ≠ fid) :
    createSubscription (createSubscription store now u p sid cid fid)
      now u p sid cid fid2 =
    createSubscription store now u p sid cid fid := by
  rw [createSubscription_of_no_row h]
  unfold createSubscription
  rw [getUserSubscription_of_filter_singleton (filter_append_insertedRow h)]
  dsimp only
  rw [if_pos (show ((insertedRow u p sid cid now fid).status == "active") = true
    from rfl)]
  unfold updateSubscription
  rw [List.map_append]
  have hstore : store.map (fun s =>
      if s.id == (insertedRow u p sid cid now fid).id then
        updateSubscriptionRow now p sid cid s else s) = store := by
    refine map_eq_self_of (fun s hs => ?_)
    have hid : (s.id == fid) = false := by
      simp [hfresh s hs]
    simp only [insertedRow, hid, Bool.false_eq_true, if_false]
  rw [hstore]
  simp [updateSubscriptionRow, insertedRow]

/-- Replaying the reconciler with the identical event at the same instant
leaves the persisted row exactly as after the first call: the second call
either short-circuits as an idempotent no-op, ignores the event as stale
again, or rewrites the row with the same values. -/
lemma reconcile_replay (cur : Option Subscription) (e : BillingEvent)
    (now : Int) (fid fid2 : Nat) (o1 : ReconcileOutcome)
    (st1 : Option Subscription)
    (h1 : handle_subscription_webhook cur e now fid = .ok (o1, st1)) :
    ∃ o2, handle_subscription_webhook st1 e now fid2 = .ok (o2, st1) := by
  cases huid : e.user_id with
  | none => simp [handle_subscription_webhook, huid] at h1
  | some uid =>
  cases hcp : computePeriodEnd e.period_start e.plan_type with
  | none => simp [handle_subscription_webhook, huid, hcp] at h1
  | some calcEnd =>
  cases cur with
  | none =>
      simp only [handle_subscription_webhook, huid, hcp, Except.ok.injEq,
        Prod.mk.injEq] at h1
      obtain ⟨-, hst⟩ := h1
      subst hst
      refine ⟨.idempotentNoop, ?_⟩
      simp only [handle_subscription_webhook, huid, hcp]
      rw [if_neg (fun hcontra => lt_irrefl _ hcontra.2)]
      simp
  | some r =>
      simp only [handle_subscription_webhook, huid, hcp] at h1
      by_cases hc1 : r.stripe_subscription_id = e.stripe_subscription_id ∧
          e.period_end.getD calcEnd < r.current_period_end
      · rw [if_pos hc1] at h1
        by_cases hc2 : e.status = "cancelled"
        · rw [if_pos hc2] at h1
          simp only [Except.ok.injEq, Prod.mk.injEq] at h1
          obtain ⟨-, hst⟩ := h1
          subst hst
          refine ⟨.applied, ?_⟩
          simp only [handle_subscription_webhook, huid, hcp]
          rw [if_pos (⟨hc1.1, hc1.2⟩ :
            ({ r with status := "cancelled",
                      updated_at := now } : Subscription).stripe_subscription_id =
                e.stripe_subscription_id ∧
              e.period_end.getD calcEnd <
                ({ r with status := "cancelled",
                          updated_at := now } : Subscription).current_period_end)]
          rw [if_pos hc2]
        · rw [if_neg hc2] at h1
          simp only [Except.ok.injEq, Prod.mk.injEq] at h1
          obtain ⟨-, hst⟩ := h1
          subst hst
          refine ⟨.staleIgnored, ?_⟩
          simp only [handle_subscription_webhook, huid, hcp]
          rw [if_pos hc1, if_neg hc2]
      · rw [if_neg hc1] at h1
        by_cases hc2 : r.plan_type = e.plan_type ∧ r.status = e.status ∧
            r.stripe_subscription_id = e.stripe_subscription_id ∧
            r.stripe_customer_id = e.stripe_customer_id ∧
            r.current_period_start = e.period_start ∧
            r.current_period_end = e.period_end.getD calcEnd
        · rw [if_pos hc2] at h1
          simp only [Except.ok.injEq, Prod.mk.injEq] at h1
          obtain ⟨-, hst⟩ := h1
          subst hst
          refine ⟨.idempotentNoop, ?_⟩
          simp only [handle_subscription_webhook, huid, hcp]
          rw [if_neg hc1, if_pos hc2]
        · rw [if_neg hc2] at h1
          simp only [Except.ok.injEq, Prod.mk.injEq] at h1
          obtain ⟨-, hst⟩ := h1
          subst hst
          refine ⟨.idempotentNoop, ?_⟩
          simp only [handle_subscription_webhook, huid, hcp]
          rw [if_neg (fun hcontra => lt_irrefl _ hcontra.2)]
          simp

/-! ## Claim theorems -/

/-- C4: the billing period computation for the monthly plan on
2025-01-31.  The repository disagrees with itself: the JavaScript helper
calculatePeriodEnd of src/unnamed/part_002 advances Date.setMonth, which does
not clamp and yields 2025-03-03, while both SQL versions of
calculate_subscription_period_end use Postgres interval addition, which
clamps to the last valid day of February, 2025-02-28.  So the claim fails on
the webhook helper and holds on the SQL calculator: the claim is right and
the JavaScript helper is the slip. -/
theorem c4_monthly_period_end_jan31 :
    calculatePeriodEnd { year := 2025, month := 1, day := 31 } "monthly" =
      { year := 2025, month := 3, day := 3 } ∧
    calculate_subscription_period_end_qt "monthly" { year := 2025, month := 1, day := 31 } =
      { year := 2025, month := 2, day := 28 } ∧
    calculate_subscription_period_end_p5 "monthly" { year := 2025, month := 1, day := 31 } =
      { year := 2025, month := 2, day := 28 } ∧
    daysInMonth 2025 2 = 28 := by
  decide

/-- C3: an unknown plan identifier such as "weekly" is not rejected anywhere
in the repository: the service period switch defaults to 30 days,
createSubscription still writes a row, the part_005 SQL calculator defaults
to 30 days and the quick_temple SQL calculator defaults to 1 month.  Only the
spec-modelled reconciler rejects it with InvalidPlanKind.  The claim (and the
spec, which itself flags the silent default as a latent bug) is right and the
code is wrong. -/
theorem c3_unknown_plan_silent_default :
    periodEndMsFor 0 "weekly" = 30 * msPerDay ∧
    createSubscription [] 0 "u1" "weekly" none none 1 =
      [{ id := 1, user_id := "u1", plan_type := "weekly", status := "active",
         stripe_subscription_id := none, stripe_customer_id := none,
         current_period_start := 0, current_period_end := 30 * msPerDay,
         created_at := 0, updated_at := 0 }] ∧
    calculate_subscription_period_end_p5 "weekly" { year := 2025, month := 1, day := 15 } =
      { year := 2025, month := 2, day := 14 } ∧
    calculate_subscription_period_end_qt "weekly" { year := 2025, month := 1, day := 15 } =
      { year := 2025, month := 2, day := 15 } ∧
    computePeriodEnd 0 "weekly" = none ∧
    handle_subscription_webhook none
      { user_id := some "u1", plan_type := "weekly", status := "active",
        stripe_subscription_id := none, stripe_customer_id := none,
        period_start := 0, period_end := none } 0 1 =
      .error .InvalidPlanKind := by
  refine ⟨by decide, by decide, by decide, by decide, by decide, rfl⟩

/-- C7: access evaluation fails open.  When the store lookup fails, and
likewise when no subscription row exists, checkSubscriptionAccess returns
access granted with trial features and the fixed constant 30 days remaining,
independent of the current time. -/
theorem c7_access_fail_open (now : Int) :
    checkSubscriptionAccess (.error ()) now =
      { hasAccess := true, subscription := none,
        features := getTrialFeatures, daysRemaining := 30 } ∧
    checkSubscriptionAccess (.ok none) now =
      { hasAccess := true, subscription := none,
        features := getTrialFeatures, daysRemaining := 30 } := by
  exact ⟨rfl, rfl⟩

/-- C9: plan feature entitlements.  The semiannual and annual plans yield the
fully unlocked feature set (unlimited counts, every flag); the trial and
monthly plans are feature-limited (each is missing at least custom branding
and API access, and trial additionally caps customers at 100 and branches at
1 with no advanced analytics or priority support). -/
theorem c9_plan_feature_entitlements :
    getPlanFeatures "semiannual" = fullFeatures ∧
    getPlanFeatures "annual" = fullFeatures ∧
    getPlanFeatures "trial" ≠ fullFeatures ∧
    getPlanFeatures "monthly" ≠ fullFeatures ∧
    getPlanFeatures "trial" = getTrialFeatures ∧
    (getPlanFeatures "trial").maxCustomers = 100 ∧
    (getPlanFeatures "trial").advancedAnalytics = false ∧
    (getPlanFeatures "monthly").customBranding = false ∧
    (getPlanFeatures "monthly").apiAccess = false := by
  decide

/-- C6: access evaluation on a subscription row.  hasAccess is exactly
status active together with the period end lying in the future, daysRemaining
is exactly the clamped ceiling of the remaining days, features come from the
plan catalog; in particular an active row whose period ended one second ago
gives no access and zero days, and an active row ending exactly one day ahead
gives access and one day. -/
theorem c6_access_evaluation (s : Subscription) (now : Int) :
    ((fallbackAccessCheck (some s) now).hasAccess = true ↔
      (s.status = "active" ∧ now < s.current_period_end)) ∧
    (fallbackAccessCheck (some s) now).daysRemaining =
      max 0 (ceilDiv (s.current_period_end - now) msPerDay) ∧
    (fallbackAccessCheck (some s) now).features = getPlanFeatures s.plan_type ∧
    (s.status = "active" → s.current_period_end = now - 1000 →
      (fallbackAccessCheck (some s) now).hasAccess = false ∧
      (fallbackAccessCheck (some s) now).daysRemaining = 0) ∧
    (s.status = "active" → s.current_period_end = now + msPerDay →
      (fallbackAccessCheck (some s) now).hasAccess = true ∧
      (fallbackAccessCheck (some s) now).daysRemaining = 1) := by
  refine ⟨?_, rfl, rfl, ?_, ?_⟩
  · simp [fallbackAccessCheck]
  · intro hs he
    constructor
    · simp [fallbackAccessCheck, hs, he]
    · simp only [fallbackAccessCheck]
      rw [he]
      have h1 : now - 1000 - now = -1000 := by ring
      rw [h1]
      decide
  · intro hs he
    constructor
    · simp [fallbackAccessCheck, hs, he, msPerDay]
    · simp only [fallbackAccessCheck]
      rw [he]
      have h1 : now + msPerDay - now = msPerDay := by ring
      rw [h1]
      decide

/-- Witness: the access-evaluation boundary cases at the concrete row. -/
theorem c6_access_evaluation_witness :
    (fallbackAccessCheck (some (boundaryRow (-1000))) 0).hasAccess = false ∧
    (fallbackAccessCheck (some (boundaryRow (-1000))) 0).daysRemaining = 0 ∧
    (fallbackAccessCheck (some (boundaryRow msPerDay)) 0).hasAccess = true ∧
    (fallbackAccessCheck (some (boundaryRow msPerDay)) 0).daysRemaining = 1 :=
  ⟨((c6_access_evaluation (boundaryRow (-1000)) 0).2.2.2.1 rfl (by decide)).1,
   ((c6_access_evaluation (boundaryRow (-1000)) 0).2.2.2.1 rfl (by decide)).2,
   ((c6_access_evaluation (boundaryRow msPerDay) 0).2.2.2.2 rfl (by decide)).1,
   ((c6_access_evaluation (boundaryRow msPerDay) 0).2.2.2.2 rfl (by decide)).2⟩

/-- C1: monotonic period advance in the reconciler (modelled from the spec,
since the SQL body of handle_subscription_webhook is not in the repository).
For an already-applied row with period end T1, an event for the same external
subscription id whose resulting period end T2 is earlier is rejected as
StaleEventIgnored, a benign outcome that leaves the row (and so T1)
untouched; unless the event is an explicit cancellation, in which case the
status change is applied regardless of period ordering, still without moving
the period backward. -/
theorem c1_monotonic_period_advance (r : Subscription) (e : BillingEvent)
    (now : Int) (freshId : Nat) (T2 calcEnd : Int)
    (huser : e.user_id = some r.user_id)
    (hsub : e.stripe_subscription_id = r.stripe_subscription_id)
    (hplan : computePeriodEnd e.period_start e.plan_type = some calcEnd)
    (hend : e.period_end = some T2)
    (hstale : T2 < r.current_period_end) :
    (e.status ≠ "cancelled" →
      handle_subscription_webhook (some r) e now freshId =
        .ok (.staleIgnored, some r)) ∧
    (e.status = "cancelled" →
      handle_subscription_webhook (some r) e now freshId =
        .ok (.applied, some { r with status := "cancelled", updated_at := now }) ∧
      ({ r with status := "cancelled", updated_at := now } :
        Subscription).current_period_end = r.current_period_end) := by
  constructor
  · intro hne
    simp only [handle_subscription_webhook, huser, hplan, hend, Option.getD_some]
    rw [if_pos ⟨hsub.symm, hstale⟩, if_neg hne]
  · intro heq
    constructor
    · simp only [handle_subscription_webhook, huser, hplan, hend, Option.getD_some]
      rw [if_pos ⟨hsub.symm, hstale⟩, if_pos heq]
    · rfl

/-- Witness: the stale event is ignored, and its cancellation variant is
applied with the period end left at T1. -/
theorem c1_monotonic_period_advance_witness :
    handle_subscription_webhook (some appliedRow) (staleEvent "active") 5 9 =
      .ok (.staleIgnored, some appliedRow) ∧
    handle_subscription_webhook (some appliedRow) (staleEvent "cancelled") 5 9 =
      .ok (.applied, some { appliedRow with status := "cancelled", updated_at := 5 }) :=
  ⟨(c1_monotonic_period_advance appliedRow (staleEvent "active") 5 9
      (20 * msPerDay) (31 * msPerDay) rfl rfl (by decide) rfl (by decide)).1
      (by decide),
   ((c1_monotonic_period_advance appliedRow (staleEvent "cancelled") 5 9
      (20 * msPerDay) (31 * msPerDay) rfl rfl (by decide) rfl (by decide)).2
      rfl).1⟩

/-- C5: single row per user.  Starting from a store with no row for the
user, three consecutive checkout-style createSubscription calls leave exactly
one stored row for that user: the first call inserts, each later call finds
the existing row and rewrites it in place. -/
theorem c5_single_row_per_user (store : List Subscription) (u p1 p2 p3 : String)
    (sid cid : Option String) (n1 n2 n3 : Int) (f1 f2 f3 : Nat)
    (h : countUser store u = 0) :
    countUser (createSubscription (createSubscription
      (createSubscription store n1 u p1 sid cid f1)
        n2 u p2 sid cid f2) n3 u p3 sid cid f3) u = 1 := by
  have h0 : store.filter (userFilter u) = [] := List.length_eq_zero.mp h
  exact countUser_createSubscription_of_one
    (countUser_createSubscription_of_one
      (countUser_createSubscription_of_no_row h0))

/-- Witness: three checkout-style events for a fresh user on the empty store
leave exactly one row. -/
theorem c5_single_row_per_user_witness :
    countUser (createSubscription (createSubscription
      (createSubscription [] 10 "u1" "monthly" (some "sub1") (some "cus1") 1)
        20 "u1" "annual" (some "sub1") (some "cus1") 2)
          30 "u1" "monthly" (some "sub1") (some "cus1") 3) "u1" = 1 :=
  c5_single_row_per_user [] "u1" "monthly" "annual" "monthly"
    (some "sub1") (some "cus1") 10 20 30 1 2 3 (by decide)

/-- C2: reconciliation is idempotent.  The first conjunct covers the
in-repository path, SubscriptionService.createSubscription: replaying the
identical call (same plan, Stripe references and instant) on the store it
produced from a user with no prior row changes nothing, because the second
call finds the freshly inserted active row and rewrites it with the same
field values.  The second conjunct covers the webhook path, the spec-modelled
handle_subscription_webhook: replaying any event whose first application
succeeded leaves the persisted row exactly as after the first call, so no
duplicate row appears and no field changes on the second call. -/
theorem c2_reconcile_idempotent :
    (∀ (store : List Subscription) (u p : String) (sid cid : Option String)
       (now : Int) (fid fid2 : Nat),
       store.filter (userFilter u) = [] → (∀ s ∈ store, s.id ≠ fid) →
       createSubscription (createSubscription store now u p sid cid fid)
         now u p sid cid fid2 =
       createSubscription store now u p sid cid fid) ∧
    (∀ (cur : Option Subscription) (e : BillingEvent) (now : Int)
       (fid fid2 : Nat) (o1 : ReconcileOutcome) (st1 : Option Subscription),
       handle_subscription_webhook cur e now fid = .ok (o1, st1) →
       ∃ o2, handle_subscription_webhook st1 e now fid2 = .ok (o2, st1)) :=
  ⟨fun _ _ _ _ _ _ fid fid2 h hfresh =>
      createSubscription_replay fid fid2 h hfresh,
    reconcile_replay⟩

/-- Witness: both idempotence statements at concrete inputs. -/
theorem c2_reconcile_idempotent_witness :
    (createSubscription
      (createSubscription [] 7 "u1" "monthly" (some "sub1") (some "cus1") 1)
        7 "u1" "monthly" (some "sub1") (some "cus1") 2 =
      createSubscription [] 7 "u1" "monthly" (some "sub1") (some "cus1") 1) ∧
    ∃ o2, handle_subscription_webhook (some replayRow) replayEvent 7 2 =
      .ok (o2, some replayRow) :=
  ⟨c2_reconcile_idempotent.1 [] "u1" "monthly" (some "sub1") (some "cus1")
      7 1 2 rfl (by simp),
    c2_reconcile_idempotent.2 none replayEvent 7 1 2 .applied (some replayRow)
      rfl⟩

/-- C8 counterexample: a reconciliation through
SubscriptionService.updateSubscription ten days after the period started
recomputes current_period_end from the update time (day 40) while leaving the
stored current_period_start at 0, so afterwards period_end no longer equals
any period calculator applied to the stored period_start and plan: neither
the fixed-duration service computation (day 30) nor the calendar Billing
Period Calculator (1970-01-01 plus one month, day 31). -/
theorem c8_derivation_counterexample :
    updateSubscription [derivedRow] (10 * msPerDay) 1 "monthly"
        (some "sub1") (some "cus1") =
      [{ derivedRow with current_period_end := 40 * msPerDay,
                         updated_at := 10 * msPerDay }] ∧
    ({ derivedRow with current_period_end := 40 * msPerDay,
                       updated_at := 10 * msPerDay } :
      Subscription).current_period_start = 0 ∧
    (40 : Int) * msPerDay ≠ periodEndMsFor 0 "monthly" ∧
    computePeriodEnd 0 "monthly" ≠ some (40 * msPerDay) := by
  refine ⟨by decide, rfl, by decide, by decide⟩

/-- C8 amended: the derivation invariant holds at insertion time — a row
inserted by createSubscription has current_period_end equal to the service
period computation applied to its stored current_period_start and plan — but
it is not preserved by every reconciliation, because updateSubscription
recomputes the period end from the update time without touching the stored
period start (and webhook invoice handlers write processor-supplied bounds
directly, which the spec treats as authoritative). -/
theorem c8_derivation_at_insert (store : List Subscription) (u p : String)
    (sid cid : Option String) (now : Int) (fid : Nat)
    (h : countUser store u = 0) :
    ∃ r : Subscription,
      createSubscription store now u p sid cid fid = store ++ [r] ∧
      r.user_id = u ∧
      r.current_period_end = periodEndMsFor r.current_period_start r.plan_type := by
  refine ⟨_, createSubscription_of_no_row (List.length_eq_zero.mp h), rfl, rfl⟩

/-- Witness: the insert-time derivation at a concrete call. -/
theorem c8_derivation_at_insert_witness :
    ∃ r : Subscription,
      createSubscription [] 5 "u1" "annual" none none 1 = [] ++ [r] ∧
      r.user_id = "u1" ∧
      r.current_period_end = periodEndMsFor r.current_period_start r.plan_type :=
  c8_derivation_at_insert [] "u1" "annual" none none 5 1 (by decide)

/-- C10: the statuses written by the webhook handlers.  The consolidated
handler of src/unnamed/part_002 maps every handled event type into the four
allowed statuses, but the duplicate handler of src/unnamed/part_003 passes
the string "canceled" (single l) for customer.subscription.deleted, which is
outside the status set declared by the Subscription type and used by every
other handler: the claim is right and part_003 is the slip. -/
theorem c10_status_canceled_out_of_set :
    webhookStatus_part003 "customer.subscription.deleted" = some "canceled" ∧
    "canceled" ∉ allowedStatuses ∧
    webhookStatus_part002 "customer.subscription.deleted" = some "cancelled" ∧
    "cancelled" ∈ allowedStatuses ∧
    webhookStatus_part002 "invoice.payment_failed" = some "past_due" ∧
    "past_due" ∈ allowedStatuses := by
  decide
